import Mathlib

/-!
Verification of the `log` decorator in `src/log_decorator.py`.

The decorator wraps a target function; on each call it resolves a log
message from the configuration (`action`, `identifier`, `inject`), emits
a `start` entry, runs the body, and emits `finish` on success or
`exception` on failure (re-raising the error).  We embed the Python
values, the parameter-resolution helper `__get_func_param_by_name`, the
message formatting done in `__Logger.__init__`, and the call lifecycle of
`log_context` / `wrapper_sync` as pure Lean functions, and prove the
specified properties about them.
-/

namespace LogDecorator

/-- Python runtime values, restricted to the shapes the decorator
manipulates: ints, strings, bools, `None`, dicts (mapping-like),
plain attribute-bearing objects (their `vars(...)` dict), and the
injected `__Logger` instance (fully determined by its resolved
message string). -/
inductive Value where
  | vint : Int → Value
  | vstr : String → Value
  | vbool : Bool → Value
  | vnone : Value
  | vdict : List (String × Value) → Value
  | vobj : List (String × Value) → Value
  | vlogger : String → Value

/-- Python truthiness for the embedded values (`bool(v)`): zero, empty
string, `False`, `None` and empty containers are falsy; plain objects
and logger instances are truthy. -/
def Value.truthy : Value → Bool
  | .vint n => decide (n ≠ 0)
  | .vstr s => decide (s ≠ "")
  | .vbool b => b
  | .vnone => false
  | .vdict l => !l.isEmpty
  | .vobj _ => true
  | .vlogger _ => true

mutual

/-- Python `repr(v)` on the embedded values.  Object and logger reprs
are address-dependent in Python; we use fixed placeholders for them
(no claim renders them). -/
def pyRepr : Value → String
  | .vint n => toString n
  | .vstr s => "\x27" ++ s ++ "\x27"
  | .vbool b => if b then "True" else "False"
  | .vnone => "None"
  | .vdict l => "\x7b" ++ pyReprPairs l ++ "\x7d"
  | .vobj _ => "<object>"
  | .vlogger _ => "<Logger>"

/-- Comma-separated `repr` of a dict's entries, as Python prints them. -/
def pyReprPairs : List (String × Value) → String
  | [] => ""
  | [(k, v)] => "\x27" ++ k ++ "\x27: " ++ pyRepr v
  | (k, v) :: p :: t => "\x27" ++ k ++ "\x27: " ++ pyRepr v ++ ", " ++ pyReprPairs (p :: t)

end

/-- Python `str(v)`: same as `repr` except on strings. -/
def pyStr (v : Value) : String :=
  match v with
  | .vstr s => s
  | _ => pyRepr v

/-- Python `str(args)` where `args` is the tuple of positional
arguments, as inserted for the `\x7bargs\x7d` placeholder. -/
def argsRepr : List Value → String
  | [] => "()"
  | [v] => "(" ++ pyRepr v ++ ",)"
  | v :: w :: t => "(" ++ String.intercalate ", " ((v :: w :: t).map pyRepr) ++ ")"

/-- Truthiness of an `Optional[str]` configuration field (`if action:`,
`if identifier:`): present and non-empty. -/
def strTruthy : Option String → Bool
  | some s => decide (s ≠ "")
  | none => false

/-- The string inserted for `\x7bidentifier_value\x7d`: the code passes
`kwargs[\x27identifier_value\x27] or \x27\x27` to `str.format`
(log_decorator.py line 110), so a falsy value renders as the empty
string, a truthy one as its `str`. -/
def renderIdent : Option Value → String
  | some v => if v.truthy then pyStr v else ""
  | none => ""

/-- The resolved log message: pattern selection from `log_context`
(lines 52-58) composed with the formatting in `__Logger.__init__`
(lines 104-111).  The initial pattern is
`\x7bfunc_name\x7d with args: \x7bargs\x7d`; a truthy `identifier`
switches it to the `with <identifier_name>: <identifier_value>` form,
and a truthy `action` replaces the `func_name` placeholder with the
action. -/
def resolvedMessage (action : Option String) (identifier : Option String)
    (funcName : String) (args : List Value) (identifierValue : Option Value) : String :=
  let namePart := if strTruthy action then action.getD "" else funcName
  if strTruthy identifier then
    namePart ++ " with " ++ identifier.getD "" ++ ": " ++ renderIdent identifierValue
  else
    namePart ++ " with args: " ++ argsRepr args

/-- The Python exceptions this component can raise or observe:
`ValueError` (raised by `__get_func_param_by_name` for a missing root
parameter), `KeyError` / `TypeError` (propagated from nested-path
lookups), and any exception raised by the target function body. -/
inductive PyErr where
  | valueError : String → PyErr
  | keyError : String → PyErr
  | typeError : String → PyErr
  | userError : String → PyErr
deriving DecidableEq, Repr

/-- Python `str(e)` for the embedded exceptions (`KeyError` quotes its
key). -/
def pyStrErr : PyErr → String
  | .valueError m => m
  | .keyError k => "\x27" ++ k ++ "\x27"
  | .typeError m => m
  | .userError m => m

/-- Dict / kwargs lookup (first matching key). -/
def kwLookup (k : String) : List (String × Value) → Option Value
  | [] => none
  | p :: t => if p.1 = k then some p.2 else kwLookup k t

/-- Whether a dict already has a key. -/
def kwHasKey (k : String) : List (String × Value) → Bool
  | [] => false
  | p :: t => if p.1 = k then true else kwHasKey k t

/-- Python dict assignment `d[k] = v`: replace in place when the key
exists, append otherwise. -/
def kwInsert (k : String) (v : Value) (l : List (String × Value)) : List (String × Value) :=
  if kwHasKey k l then
    l.map (fun p => if p.1 = k then (k, v) else p)
  else
    l ++ [(k, v)]

/-- Python `list.index` as used on the parameter-name list: index of
the first occurrence, `none` when absent (where the code raises
`ValueError`). -/
def listIndex (a : String) : List String → Option Nat
  | [] => none
  | x :: t => if x = a then some 0 else (listIndex a t).map (fun n => n + 1)

/-- One nested-path step (lines 173-177): key lookup when the current
value is a dict, otherwise `vars(value)[segment]` — attribute lookup on
an object's `__dict__`, a `TypeError` on values without one.  Lookup
failures propagate unmodified. -/
def lookupSubitem (v : Value) (k : String) : Except PyErr Value :=
  match v with
  | .vdict l =>
    match kwLookup k l with
    | some w => .ok w
    | none => .error (.keyError k)
  | .vobj l =>
    match kwLookup k l with
    | some w => .ok w
    | none => .error (.keyError k)
  | _ => .error (.typeError "vars() argument must have __dict__ attribute")

/-- Traverse the remaining dot-path segments. -/
def traverseSubitems : List String → Value → Except PyErr Value
  | [], v => .ok v
  | s :: rest, v =>
    match lookupSubitem v s with
    | .ok w => traverseSubitems rest w
    | .error e => .error e

/-- Python `\x27.\x27 in param_name` (line 158). -/
def containsDot (s : String) : Bool :=
  s.data.any (fun c => c == '.')

/-- Python `param_name.split(\x27.\x27)` on the character list: split at
every dot, keeping empty segments, with `[""]` for the empty string. -/
def splitDotChars : List Char → List (List Char)
  | [] => [[]]
  | c :: t =>
    if c == '.' then [] :: splitDotChars t
    else
      match splitDotChars t with
      | [] => [[c]]
      | h :: r => (c :: h) :: r

/-- Python `param_name.split(\x27.\x27)`. -/
def splitDot (s : String) : List String :=
  (splitDotChars s.data).map String.mk

/-- Root segment of a dot-path identifier (lines 158-163): the text
before the first dot, or the whole name when there is no dot. -/
def rootOf (paramName : String) : String :=
  if containsDot paramName then (splitDot paramName).headD paramName else paramName

/-- The remaining dot-path segments after the root. -/
def subitemsOf (paramName : String) : List String :=
  if containsDot paramName then (splitDot paramName).tail else []

/-- `__get_func_param_by_name(func, args, kwargs, param_name)`
(lines 157-180): split the dot-path, find the root among the declared
parameter names (`ValueError` naming the root when absent), read the
value positionally by that index with keyword fallback (`kwargs.get`,
yielding `None` when absent), then traverse the remaining segments. -/
def getFuncParamByName (params : List String) (args : List Value)
    (kwargs : List (String × Value)) (paramName : String) : Except PyErr Value :=
  let root := rootOf paramName
  match listIndex root params with
  | none => .error (.valueError ("Identifier " ++ root ++ " not found in function arguments"))
  | some idx =>
    let base :=
      match args.get? idx with
      | some v => v
      | none => (kwLookup root kwargs).getD Value.vnone
    traverseSubitems (subitemsOf paramName) base

/-- Backend log levels the component dispatches to. -/
inductive Level where
  | info | debug | warning | error | exception
deriving DecidableEq, Repr

/-- One backend emission: the level method called on the process-wide
logger and the message string passed to it. -/
structure Emission where
  level : Level
  message : String
deriving DecidableEq, Repr

/-- The per-call `__Logger` (lines 103-154): fully determined by its
resolved message `_message`. -/
structure Logger where
  message : String
deriving DecidableEq, Repr

/-- `start()` (line 126): `info` emission `Starting <message>`. -/
def Logger.startE (L : Logger) : Emission :=
  ⟨Level.info, "Starting " ++ L.message⟩

/-- `finish()` (line 154): `info` emission `Finished <message>`. -/
def Logger.finishE (L : Logger) : Emission :=
  ⟨Level.info, "Finished " ++ L.message⟩

/-- `__log` (lines 121-122): the note-taking methods format
`<message> | <msg>` and dispatch to the same-named backend method. -/
def Logger.noteE (L : Logger) (lvl : Level) (msg : String) : Emission :=
  ⟨lvl, L.message ++ " | " ++ msg⟩

/-- `info(msg)` note emission. -/
def Logger.infoE (L : Logger) (msg : String) : Emission :=
  L.noteE Level.info msg

/-- `debug(msg)` note emission. -/
def Logger.debugE (L : Logger) (msg : String) : Emission :=
  L.noteE Level.debug msg

/-- `warning(msg)` note emission. -/
def Logger.warningE (L : Logger) (msg : String) : Emission :=
  L.noteE Level.warning msg

/-- `error(msg)` note emission. -/
def Logger.errorE (L : Logger) (msg : String) : Emission :=
  L.noteE Level.error msg

/-- `exception(msg)` note emission. -/
def Logger.exceptionE (L : Logger) (msg : String) : Emission :=
  L.noteE Level.exception msg

/-- A target function: its `__name__`, its declared parameter names in
order (`inspect.signature(func).parameters`), and its body, which maps
the positional and keyword arguments to a normal return or a raised
exception. -/
structure Func where
  name : String
  params : List String
  run : List Value → List (String × Value) → Except PyErr Value

/-- The decorator configuration captured at decoration time:
`log(action=..., identifier=..., inject=...)`. -/
structure Config where
  action : Option String
  identifier : Option String
  inject : Bool

/-- Identifier resolution step of `log_context` (lines 53-56): when the
configured identifier is truthy, resolve it against the call's
arguments; a failure propagates before any logger exists. -/
def resolveIdentOpt (cfg : Config) (f : Func) (args : List Value)
    (kwargs : List (String × Value)) : Except PyErr (Option Value) :=
  if strTruthy cfg.identifier then
    match getFuncParamByName f.params args kwargs (cfg.identifier.getD "") with
    | .ok v => .ok (some v)
    | .error e => .error e
  else
    .ok none

/-- The message the per-call logger is constructed with (lines 60-67). -/
def callMessage (cfg : Config) (f : Func) (args : List Value)
    (identVal : Option Value) : String :=
  resolvedMessage cfg.action cfg.identifier f.name args identVal

/-- The keyword arguments the target body receives (lines 69-70, 87-88):
the caller's kwargs, with `__logger` bound to the per-call logger when
`inject` is set. -/
def callKwargs (cfg : Config) (msg : String)
    (kwargs : List (String × Value)) : List (String × Value) :=
  if cfg.inject then kwInsert "__logger" (Value.vlogger msg) kwargs else kwargs

/-- One call of the decorated function (`wrapper_sync` entering
`log_context`, lines 49-99): returns the ordered list of backend
emissions made by the decorator machinery and the call's outcome.
Identifier resolution happens before the logger exists, so its failure
produces no emission; otherwise `start` is emitted, the body runs with
the possibly-augmented kwargs, and `finish` (success) or `exception`
with the stringified error (failure, error re-raised) follows. -/
def decoratedCall (cfg : Config) (f : Func) (args : List Value)
    (kwargs : List (String × Value)) : List Emission × Except PyErr Value :=
  match resolveIdentOpt cfg f args kwargs with
  | .error e => ([], .error e)
  | .ok identVal =>
    let L : Logger := ⟨callMessage cfg f args identVal⟩
    match f.run args (callKwargs cfg L.message kwargs) with
    | .ok v => ([L.startE, L.finishE], .ok v)
    | .error e => ([L.startE, L.exceptionE (pyStrErr e)], .error e)

/-- A concrete zero-parameter function whose body always raises. -/
def failingFunc : Func :=
  ⟨"boom", [], fun _ _ => .error (.userError "kaboom")⟩

/-- A concrete zero-parameter function whose body returns `7`. -/
def constFunc : Func :=
  ⟨"seven", [], fun _ _ => .ok (.vint 7)⟩

/-- A concrete one-parameter function `f(a)` returning its argument. -/
def idFunc : Func :=
  ⟨"f", ["a"], fun args _ => .ok (args.headD .vnone)⟩

/-- `list.index` yields no index when the element is absent. -/
theorem listIndex_eq_none_of_not_mem (a : String) :
    ∀ l : List String, a ∉ l → listIndex a l = none
  | [], _ => rfl
  | x :: t, h => by
    have hx : ¬ x = a := fun e => h (e ▸ List.mem_cons_self x t)
    have ht := listIndex_eq_none_of_not_mem a t (fun m => h (List.mem_cons_of_mem x m))
    simp [listIndex, hx, ht]

/-- Replacing an existing key in place makes lookup return the new value. -/
theorem kwLookup_map_replace (k : String) (v : Value) :
    ∀ l : List (String × Value), kwHasKey k l = true →
      kwLookup k (l.map fun p => if p.1 = k then (k, v) else p) = some v
  | [], h => by simp [kwHasKey] at h
  | p :: t, h => by
    by_cases hp : p.1 = k
    · simp [kwLookup, hp]
    · have ht : kwHasKey k t = true := by
        rwa [kwHasKey, if_neg hp] at h
      simp [kwLookup, hp, kwLookup_map_replace k v t ht]

/-- Appending a fresh key makes lookup return its value. -/
theorem kwLookup_append_single (k : String) (v : Value) :
    ∀ l : List (String × Value), kwHasKey k l = false →
      kwLookup k (l ++ [(k, v)]) = some v
  | [], _ => by simp [kwLookup]
  | p :: t, h => by
    by_cases hp : p.1 = k
    · rw [kwHasKey, if_pos hp] at h
      exact absurd h (by simp)
    · have ht : kwHasKey k t = false := by
        rwa [kwHasKey, if_neg hp] at h
      simp [kwLookup, hp, kwLookup_append_single k v t ht]

/-- Dict assignment followed by lookup of the same key yields the
assigned value. -/
theorem kwLookup_kwInsert (k : String) (v : Value) (l : List (String × Value)) :
    kwLookup k (kwInsert k v l) = some v := by
  cases hk : kwHasKey k l with
  | false => simp [kwInsert, hk, kwLookup_append_single k v l hk]
  | true => simp [kwInsert, hk, kwLookup_map_replace k v l hk]

/-- C6: for `f(a, b)` decorated with identifier `a`, the positional call
`f(1, 2)` and the keyword call `f(b=2, a=1)` both resolve the identifier
value to `1`. -/
theorem c6_positional_and_keyword_resolve_alike :
    getFuncParamByName ["a", "b"] [.vint 1, .vint 2] [] "a" = .ok (.vint 1) ∧
    getFuncParamByName ["a", "b"] [] [("b", .vint 2), ("a", .vint 1)] "a" = .ok (.vint 1) :=
  ⟨rfl, rfl⟩

/-- C7: for `f(obj)` decorated with identifier `obj.name`, a mapping
argument resolves the dot segment by key lookup and a plain object
resolves it by attribute lookup, yielding the stored value either way. -/
theorem c7_dot_path_mapping_and_attribute :
    ∀ x : Value,
      getFuncParamByName ["obj"] [.vdict [("name", x)]] [] "obj.name" = .ok x ∧
      getFuncParamByName ["obj"] [.vobj [("name", x)]] [] "obj.name" = .ok x :=
  fun _ => ⟨rfl, rfl⟩

/-- C10: a falsy resolved identifier value (0, False, None, "", an
omitted keyword argument defaulting to None, ...) is rendered as the
empty string in the log message, so the call `f(0)` with identifier `a`
yields the message `f with a: ` and never `f with a: 0`. -/
theorem c10_falsy_identifier_renders_empty :
    (∀ v : Value, v.truthy = false → renderIdent (some v) = "") ∧
    getFuncParamByName ["a"] [] [] "a" = .ok Value.vnone ∧
    resolvedMessage none (some "a") "f" [.vint 0] (some (.vint 0)) = "f with a: " ∧
    resolvedMessage none (some "a") "f" [.vint 0] (some (.vint 0)) ≠ "f with a: 0" :=
  ⟨fun v hv => by simp [renderIdent, hv], rfl, rfl, by decide⟩

/-- Witness for C10 at the falsy value `0`. -/
theorem c10_witness : renderIdent (some (Value.vint 0)) = "" :=
  c10_falsy_identifier_renders_empty.1 (Value.vint 0) rfl

/-- String concatenation is associative. -/
theorem strAppend_assoc (a b c : String) : a ++ b ++ c = a ++ (b ++ c) := by
  cases a
  cases b
  cases c
  simp only [HAppend.hAppend, Append.append, String.append]
  exact congrArg String.mk (List.append_assoc _ _ _)

/-- C2 fails on the code: with action `doWork` present and identifier
absent, the resolved message is `doWork with args: ()` (for a no-argument
call), not the action text `doWork` alone — the action replaces only the
`func_name` placeholder, leaving the args suffix in place. -/
theorem c2_counterexample :
    resolvedMessage (some "doWork") none "f" [] none = "doWork with args: ()" ∧
    resolvedMessage (some "doWork") none "f" [] none ≠ "doWork" :=
  ⟨rfl, by decide⟩

/-- C2 (amended): with action present and identifier absent, the
resolved message is the action text followed by ` with args: ` and the
repr of the positional-argument tuple. -/
theorem c2_amended_action_with_args (a funcName : String) (args : List Value)
    (ha : a ≠ "") :
    resolvedMessage (some a) none funcName args none =
      a ++ " with args: " ++ argsRepr args := by
  simp [resolvedMessage, strTruthy, ha]

/-- Witness for the amended C2 at action `doWork` and a one-argument
call. -/
theorem c2_amended_witness :
    resolvedMessage (some "doWork") none "f" [.vint 3] none =
      "doWork" ++ " with args: " ++ argsRepr [.vint 3] :=
  c2_amended_action_with_args "doWork" "f" [.vint 3] (by decide)

/-- C3: with both action and identifier present (non-empty), the
resolved message is `<action> with <identifier_name>: <identifier_value>`,
the value rendered by `str` (a falsy value rendering empty, see C10). -/
theorem c3_action_with_identifier_message (a i funcName : String)
    (args : List Value) (v : Option Value) (ha : a ≠ "") (hi : i ≠ "") :
    resolvedMessage (some a) (some i) funcName args v =
      a ++ " with " ++ i ++ ": " ++ renderIdent v := by
  simp [resolvedMessage, strTruthy, ha, hi]

/-- Witness for C3 at action `doWork`, identifier `user_id`, value `5`. -/
theorem c3_witness :
    resolvedMessage (some "doWork") (some "user_id") "f" [] (some (.vint 5)) =
      "doWork" ++ " with " ++ "user_id" ++ ": " ++ renderIdent (some (.vint 5)) :=
  c3_action_with_identifier_message "doWork" "user_id" "f" [] (some (.vint 5))
    (by decide) (by decide)

/-- C1 fails on the code: with identifier unset, a failing call produces
two backend emissions — `start` is emitted before the body runs, then
`exception` — not exactly one. -/
theorem c1_counterexample :
    decoratedCall ⟨none, none, false⟩ failingFunc [] [] =
      ([⟨Level.info, "Starting boom with args: ()"⟩,
        ⟨Level.exception, "boom with args: () | kaboom"⟩],
       .error (.userError "kaboom")) ∧
    (decoratedCall ⟨none, none, false⟩ failingFunc [] []).1.length ≠ 1 :=
  ⟨rfl, by decide⟩

/-- C1 (amended): with identifier unset, a successful call produces
exactly the two emissions `start` then `finish`, in that order; a
failing call produces exactly the two emissions `start` then
`exception`, with no `finish`, and the error is re-raised. -/
theorem c1_amended_lifecycle_emissions (a : Option String) (inj : Bool)
    (f : Func) (args : List Value) (kwargs : List (String × Value)) :
    (∀ v : Value,
      f.run args (callKwargs ⟨a, none, inj⟩
          (callMessage ⟨a, none, inj⟩ f args none) kwargs) = .ok v →
      decoratedCall ⟨a, none, inj⟩ f args kwargs =
        ([Logger.startE ⟨callMessage ⟨a, none, inj⟩ f args none⟩,
          Logger.finishE ⟨callMessage ⟨a, none, inj⟩ f args none⟩], .ok v)) ∧
    (∀ e : PyErr,
      f.run args (callKwargs ⟨a, none, inj⟩
          (callMessage ⟨a, none, inj⟩ f args none) kwargs) = .error e →
      decoratedCall ⟨a, none, inj⟩ f args kwargs =
        ([Logger.startE ⟨callMessage ⟨a, none, inj⟩ f args none⟩,
          Logger.exceptionE ⟨callMessage ⟨a, none, inj⟩ f args none⟩ (pyStrErr e)],
         .error e)) := by
  constructor
  · intro v h
    simp [decoratedCall, resolveIdentOpt, strTruthy, h]
  · intro e h
    simp [decoratedCall, resolveIdentOpt, strTruthy, h]

/-- Witness for the amended C1: both branches at concrete calls. -/
theorem c1_amended_witness :
    decoratedCall ⟨none, none, false⟩ constFunc [] [] =
      ([Logger.startE ⟨callMessage ⟨none, none, false⟩ constFunc [] none⟩,
        Logger.finishE ⟨callMessage ⟨none, none, false⟩ constFunc [] none⟩],
       .ok (.vint 7)) ∧
    decoratedCall ⟨none, none, false⟩ failingFunc [] [] =
      ([Logger.startE ⟨callMessage ⟨none, none, false⟩ failingFunc [] none⟩,
        Logger.exceptionE ⟨callMessage ⟨none, none, false⟩ failingFunc [] none⟩
          (pyStrErr (.userError "kaboom"))],
       .error (.userError "kaboom")) :=
  ⟨(c1_amended_lifecycle_emissions none false constFunc [] []).1 (.vint 7) rfl,
   (c1_amended_lifecycle_emissions none false failingFunc [] []).2
     (.userError "kaboom") rfl⟩

/-- C4: whenever the body raises, the decorator emits `exception` with
the stringified error and re-raises the original error unchanged — the
outcome is exactly that error, never a return value. -/
theorem c4_exception_logged_and_reraised (cfg : Config) (f : Func)
    (args : List Value) (kwargs : List (String × Value)) (iv : Option Value)
    (e : PyErr)
    (hres : resolveIdentOpt cfg f args kwargs = .ok iv)
    (hrun : f.run args (callKwargs cfg (callMessage cfg f args iv) kwargs) = .error e) :
    decoratedCall cfg f args kwargs =
      ([Logger.startE ⟨callMessage cfg f args iv⟩,
        Logger.exceptionE ⟨callMessage cfg f args iv⟩ (pyStrErr e)], .error e) := by
  simp [decoratedCall, hres, hrun]

/-- Witness for C4 at a concrete failing call. -/
theorem c4_witness :
    decoratedCall ⟨some "work", none, false⟩ failingFunc [] [] =
      ([Logger.startE ⟨callMessage ⟨some "work", none, false⟩ failingFunc [] none⟩,
        Logger.exceptionE ⟨callMessage ⟨some "work", none, false⟩ failingFunc [] none⟩
          (pyStrErr (.userError "kaboom"))],
       .error (.userError "kaboom")) :=
  c4_exception_logged_and_reraised ⟨some "work", none, false⟩ failingFunc [] []
    none (.userError "kaboom") rfl rfl

/-- C5: whenever the body returns normally, the decorated call returns
exactly that value; with `inject` unset the body receives exactly the
caller's keyword arguments, so the decorated call returns what the
unwrapped function would. -/
theorem c5_return_value_passed_through (cfg : Config) (f : Func)
    (args : List Value) (kwargs : List (String × Value)) (iv : Option Value)
    (v : Value)
    (hres : resolveIdentOpt cfg f args kwargs = .ok iv)
    (hrun : f.run args (callKwargs cfg (callMessage cfg f args iv) kwargs) = .ok v) :
    (decoratedCall cfg f args kwargs).2 = .ok v ∧
    (cfg.inject = false →
      callKwargs cfg (callMessage cfg f args iv) kwargs = kwargs) := by
  constructor
  · simp [decoratedCall, hres, hrun]
  · intro hinj
    simp [callKwargs, hinj]

/-- Witness for C5 at a concrete successful call. -/
theorem c5_witness :
    (decoratedCall ⟨none, none, false⟩ constFunc [] []).2 = .ok (.vint 7) ∧
    (Config.inject ⟨none, none, false⟩ = false →
      callKwargs ⟨none, none, false⟩
        (callMessage ⟨none, none, false⟩ constFunc [] none) [] = []) :=
  c5_return_value_passed_through ⟨none, none, false⟩ constFunc [] [] none
    (.vint 7) rfl rfl

/-- C8: when the identifier's root segment names no declared parameter
of the target, every call fails with the `ValueError` naming the missing
root, with no backend emission; the result does not depend on the body
(`f.run` is arbitrary), so the error precedes the body's execution.
Decoration itself performs no resolution — `decoratedCall` is the only
operation that does. -/
theorem c8_missing_root_raises_before_emission (a : Option String)
    (inj : Bool) (s : String) (f : Func) (args : List Value)
    (kwargs : List (String × Value)) (hs : s ≠ "")
    (hroot : rootOf s ∉ f.params) :
    decoratedCall ⟨a, some s, inj⟩ f args kwargs =
      ([], .error (.valueError
        ("Identifier " ++ rootOf s ++ " not found in function arguments"))) := by
  have hidx := listIndex_eq_none_of_not_mem (rootOf s) f.params hroot
  simp [decoratedCall, resolveIdentOpt, strTruthy, hs, getFuncParamByName, hidx]

/-- Witness for C8: identifier `missing` on `f(a)`. -/
theorem c8_witness :
    decoratedCall ⟨none, some "missing", false⟩ idFunc [.vint 3] [] =
      ([], .error (.valueError
        ("Identifier " ++ rootOf "missing" ++ " not found in function arguments"))) :=
  c8_missing_root_raises_before_emission none false "missing" idFunc [.vint 3] []
    (by decide) (by decide)

/-- C9: with `inject` set, the kwargs the body receives bind the
reserved key `__logger` to the per-call logger carrying the resolved
message; its `info` method on `"hello"` yields exactly one backend
`info` emission `<resolved message> | hello`, and each note-taking
method dispatches to the same-named backend level with the
`<resolved message> | <msg>` format. -/
theorem c9_injected_logger_notes (a i : Option String) (f : Func)
    (args : List Value) (kwargs : List (String × Value)) (iv : Option Value)
    (hres : resolveIdentOpt ⟨a, i, true⟩ f args kwargs = .ok iv) :
    kwLookup "__logger"
        (callKwargs ⟨a, i, true⟩ (callMessage ⟨a, i, true⟩ f args iv) kwargs) =
      some (.vlogger (callMessage ⟨a, i, true⟩ f args iv)) ∧
    Logger.infoE ⟨callMessage ⟨a, i, true⟩ f args iv⟩ "hello" =
      ⟨Level.info, callMessage ⟨a, i, true⟩ f args iv ++ " | hello"⟩ ∧
    (∀ m, Logger.infoE ⟨callMessage ⟨a, i, true⟩ f args iv⟩ m =
      ⟨Level.info, callMessage ⟨a, i, true⟩ f args iv ++ " | " ++ m⟩) ∧
    (∀ m, Logger.debugE ⟨callMessage ⟨a, i, true⟩ f args iv⟩ m =
      ⟨Level.debug, callMessage ⟨a, i, true⟩ f args iv ++ " | " ++ m⟩) ∧
    (∀ m, Logger.warningE ⟨callMessage ⟨a, i, true⟩ f args iv⟩ m =
      ⟨Level.warning, callMessage ⟨a, i, true⟩ f args iv ++ " | " ++ m⟩) ∧
    (∀ m, Logger.errorE ⟨callMessage ⟨a, i, true⟩ f args iv⟩ m =
      ⟨Level.error, callMessage ⟨a, i, true⟩ f args iv ++ " | " ++ m⟩) ∧
    (∀ m, Logger.exceptionE ⟨callMessage ⟨a, i, true⟩ f args iv⟩ m =
      ⟨Level.exception, callMessage ⟨a, i, true⟩ f args iv ++ " | " ++ m⟩) := by
  refine ⟨?_, ?_, fun m => rfl, fun m => rfl, fun m => rfl, fun m => rfl, fun m => rfl⟩
  · simp [callKwargs, kwLookup_kwInsert]
  · show Emission.mk Level.info (callMessage ⟨a, i, true⟩ f args iv ++ " | " ++ "hello") = _
    rw [strAppend_assoc]
    have h : (" | " ++ "hello" : String) = " | hello" := by decide
    rw [h]

/-- Witness for C9 at a concrete injected call. -/
theorem c9_witness :
    kwLookup "__logger"
        (callKwargs ⟨none, none, true⟩
          (callMessage ⟨none, none, true⟩ constFunc [] none) []) =
      some (.vlogger (callMessage ⟨none, none, true⟩ constFunc [] none)) ∧
    Logger.infoE ⟨callMessage ⟨none, none, true⟩ constFunc [] none⟩ "hello" =
      ⟨Level.info, callMessage ⟨none, none, true⟩ constFunc [] none ++ " | hello"⟩ :=
  ⟨(c9_injected_logger_notes none none constFunc [] [] none rfl).1,
   (c9_injected_logger_notes none none constFunc [] [] none rfl).2.1⟩

end LogDecorator
